import Mathlib

/-!
Verification of the CodeAny course-generation backend.

This file shallowly embeds the parts of `backend/app/ai` that the verified
claims are about: the retry/backoff gateway (`llm.py`), the pipeline
orchestrator's fan-out and progress reporting (`graph.py`), the Manim code
validator (`nodes/manim_writer.py`), the syllabus fallback
(`nodes/syllabus.py`), the compilation strategy cascade (`compile_manim.py`)
and the two bounded-concurrency permit sets.  Pure Python functions become
Lean functions; calls to external systems (the chat backend, the Python
parser, subprocesses, environment variables) become explicit parameters; a
Python function that may raise becomes a function into `Except`.
-/

/- ------------------------------------------------------------------ -/
/- String utilities mirroring the Python primitives used by the code. -/
/- ------------------------------------------------------------------ -/

/-- Python's substring test `needle in hay`, over character lists. -/
def hasSub (needle : List Char) : List Char → Bool
  | [] => needle.isEmpty
  | c :: t => needle.isPrefixOf (c :: t) || hasSub needle t

/-- Python's `needle in hay` on strings. -/
def strContains (hay needle : String) : Bool := hasSub needle.data hay.data

/-- Python `str.lower` restricted to ASCII (the only case the code exercises). -/
def lowerChars (cs : List Char) : List Char := cs.map Char.toLower

/-- The whitespace class of Python's `str.strip` / the regex class `\s`
(ASCII part). -/
def pyIsSpace (c : Char) : Bool :=
  c == ' ' || c == '\t' || c == '\n' || c == '\r' || c == '\x0b' || c == '\x0c'

/-- Python `str.strip()`. -/
def stripChars (cs : List Char) : List Char :=
  ((cs.dropWhile pyIsSpace).reverse.dropWhile pyIsSpace).reverse

/-- Python `s.startswith(pre)`. -/
def pyStartsWith (s pre : String) : Bool := pre.data.isPrefixOf s.data

/-- Python `s.endswith(post)`. -/
def pyEndsWith (s post : String) : Bool :=
  post.data.reverse.isPrefixOf s.data.reverse

/-- Python `s.replace("'", "\\'")`: escape every apostrophe with a
backslash. -/
def escapeQuoteChars : List Char → List Char
  | [] => []
  | c :: t =>
    if c == '\'' then '\\' :: '\'' :: escapeQuoteChars t
    else c :: escapeQuoteChars t

/-- Python `s.replace("'", "\\'")` on strings. -/
def escapeQuotes (s : String) : String := String.mk (escapeQuoteChars s.data)

/-- The value of a non-empty decimal digit run, `none` on a non-digit. -/
def digitsValAux : List Char → ℕ → Option ℕ
  | [], acc => some acc
  | c :: t, acc =>
    if c.isDigit then digitsValAux t (acc * 10 + (c.toNat - 48)) else none

/-- Python `int(s)` for a decimal string: strip whitespace, optional sign,
digits only (underscore separators are not modelled — no claim exercises
them). -/
def pyStrToInt (s : String) : Option ℤ :=
  match stripChars s.data with
  | '-' :: rest =>
    if rest.isEmpty then none
    else (digitsValAux rest 0).map (fun n => -(n : ℤ))
  | '+' :: rest =>
    if rest.isEmpty then none
    else (digitsValAux rest 0).map (fun n => (n : ℤ))
  | rest =>
    if rest.isEmpty then none
    else (digitsValAux rest 0).map (fun n => (n : ℤ))

/-- Python `sep.join(strings)`. -/
def joinStrings (sep : String) : List String → String
  | [] => ""
  | [s] => s
  | s :: rest => s ++ sep ++ joinStrings sep rest

/- ------------------------------------------------------------------ -/
/- Remote-call gateway: backend/app/ai/llm.py                         -/
/- ------------------------------------------------------------------ -/

/-- The transient-error signatures of `_is_retryable_error` (llm.py:13-16). -/
def retry_markers : List String :=
  ["429", "rate limit", "too many requests", "quota", "overloaded",
   "timeout", "timed out", "server error", "502", "503", "504"]

/-- `_is_retryable_error` (llm.py:11-17): lowercase the stringified error and
look for any known transient marker as a substring. -/
def _is_retryable_error (msg : String) : Bool :=
  retry_markers.any (fun m => hasSub m.data (lowerChars msg.data))

/-- `_backoff_delay` (llm.py:20-24) with the jitter drawn by `random.uniform`
made an explicit argument: `min(cap, base * 2 ** (attempt - 1) + jitter)`
with `base = 0.8`, `cap = 20.0`.  Floats are modelled as rationals. -/
def _backoff_delay (attempt : ℕ) (jitter : ℚ) : ℚ :=
  min 20 (0.8 * 2 ^ (attempt - 1) + jitter)

/-- The default retry budget: `int(os.getenv("LLM_MAX_RETRIES", "5") or 5)`
(llm.py:54) with the variable unset. -/
def LLM_MAX_RETRIES_default : ℕ := 5

/-- The retry loop of `openrouter_chat` (llm.py:56-87).  `oracle n` is the
outcome of the n-th generative call (`.ok content`, or `.error msg` for an
exception whose stringification is `msg`).  Returns the overall outcome
together with the number of calls issued.  The fuel argument counts the
remaining loop iterations of `for attempt in range(1, retries + 1)`; with
fuel `0` the loop body never ran and the function returns `""`
(llm.py:84-87, `last_err` is `None`). -/
def chat_go (oracle : ℕ → Except String String) (retries : ℕ) :
    ℕ → ℕ → Except String String × ℕ
  | _, 0 => (.ok "", 0)
  | attempt, fuel + 1 =>
    match oracle attempt with
    | .ok content => (.ok content, 1)
    | .error e =>
      if retries ≤ attempt || !_is_retryable_error e then (.error e, 1)
      else
        let r := chat_go oracle retries (attempt + 1) fuel
        (r.1, r.2 + 1)

/-- `openrouter_chat` (llm.py:41-87) as a function of the call oracle and the
retry budget: result plus number of generative calls made. -/
def openrouter_chat (oracle : ℕ → Except String String) (retries : ℕ) :
    Except String String × ℕ :=
  chat_go oracle retries 1 retries

/- ------------------------------------------------------------------ -/
/- JSON values and Python dynamic-value semantics.                    -/
/- ------------------------------------------------------------------ -/

/-- The values `json.loads` can produce, used for `safe_json_loads` output,
`constraints` values and the `gemini_output` artifact field. -/
inductive JsonVal where
  | jnull
  | jbool (b : Bool)
  | jnum (n : ℤ)
  | jstr (s : String)
  | jarr (xs : List JsonVal)
  | jobj (fields : List (String × JsonVal))

/-- Python truthiness of a JSON value. -/
def pyTruthy : JsonVal → Bool
  | .jnull => false
  | .jbool b => b
  | .jnum n => n != 0
  | .jstr s => !s.isEmpty
  | .jarr xs => !xs.isEmpty
  | .jobj fs => !fs.isEmpty

/-- First-match association lookup (the dict produced by `json.loads` has
unique keys). -/
def objGet (fields : List (String × JsonVal)) (key : String) : Option JsonVal :=
  match fields.find? (fun p => p.1 == key) with
  | some p => some p.2
  | none => none

/-- Python `key in data`: key membership for a dict, element equality for a
list, substring for a string; raises `TypeError` on non-iterables. -/
def pyContains (key : String) : JsonVal → Except String Bool
  | .jobj fields => .ok (fields.any (fun p => p.1 == key))
  | .jarr xs => .ok (xs.any (fun x => match x with | .jstr s => s == key | _ => false))
  | .jstr s => .ok (hasSub key.data s.data)
  | _ => .error "TypeError"

/-- Python `data[key]`: only a dict supports string subscripts; a list or
string raises `TypeError`, other values too. -/
def pySubscript (data : JsonVal) (key : String) : Except String JsonVal :=
  match data with
  | .jobj fields =>
    match objGet fields key with
    | some v => .ok v
    | none => .error "KeyError"
  | _ => .error "TypeError"

/-- Python `int(v)` on a JSON value. -/
def pyInt : JsonVal → Except String ℤ
  | .jnum n => .ok n
  | .jbool b => .ok (if b then 1 else 0)
  | .jstr s => match pyStrToInt s with | some n => .ok n | none => .error "ValueError"
  | _ => .error "TypeError"

/- ------------------------------------------------------------------ -/
/- Data model: backend/app/ai/graph.py TypedDicts.                    -/
/- ------------------------------------------------------------------ -/

/-- `ModuleSpec` (graph.py:15-19). -/
structure ModuleSpec where
  id : String
  title : String
  objectives : List String
  outline : List String
deriving DecidableEq

/-- `ModuleArtifact` (graph.py:22-29) as populated by the fan-out stage
(`video_path` is added later by the compile stage). -/
structure ModuleArtifact where
  module_id : String
  title : String
  outline : List String
  text : String
  manim_code : String
  gemini_output : JsonVal
  video_path : Option String

/- ------------------------------------------------------------------ -/
/- Python dict-comprehension semantics.                               -/
/- ------------------------------------------------------------------ -/

/-- One `d[k] = v` step of building a Python dict: an existing key keeps its
position and takes the new value, a fresh key is appended. -/
def pyDictInsert (d : List (String × α)) (k : String) (v : α) : List (String × α) :=
  if d.any (fun p => p.1 == k) then
    d.map (fun p => if p.1 == k then (p.1, v) else p)
  else d ++ [(k, v)]

/-- `{m["module_id"]: m for m in mods}` — a Python dict built left to right. -/
def pyDict (xs : List (String × α)) : List (String × α) :=
  xs.foldl (fun d p => pyDictInsert d p.1 p.2) []

/- ------------------------------------------------------------------ -/
/- Fan-out stage: `_fanout` in graph.py:96-123.                       -/
/- ------------------------------------------------------------------ -/

/-- The per-module task `process` (graph.py:100-115): the text, Manim-code
and image generators are the oracle parameters. -/
def process_module (textGen codeGen : ModuleSpec → String)
    (gimGen : ModuleSpec → JsonVal) (spec : ModuleSpec) : ModuleArtifact :=
  { module_id := spec.id
    title := spec.title
    outline := spec.outline
    text := textGen spec
    manim_code := codeGen spec
    gemini_output := gimGen spec
    video_path := none }

/-- `_fanout` (graph.py:96-123): run `process` over every syllabus entry and
build `state["modules"] = {m["module_id"]: m for m in mods}`. -/
def _fanout (specs : List ModuleSpec) (textGen codeGen : ModuleSpec → String)
    (gimGen : ModuleSpec → JsonVal) : List (String × ModuleArtifact) :=
  pyDict ((specs.map (process_module textGen codeGen gimGen)).map
    (fun m => (m.module_id, m)))

/- ------------------------------------------------------------------ -/
/- Syllabus stage: backend/app/ai/nodes/syllabus.py                   -/
/- ------------------------------------------------------------------ -/

/-- One fallback module of `generate_syllabus` (syllabus.py:49-55). -/
def fallback_module (topic : String) (i : ℕ) : JsonVal :=
  .jobj [("id", .jstr ("m" ++ toString i)),
         ("title", .jstr ("Module " ++ toString i ++ ": " ++ topic)),
         ("objectives", .jarr [.jstr "Explain key ideas", .jstr "Apply basic methods"]),
         ("outline", .jarr [.jstr "Introduction", .jstr "Core Concepts",
                            .jstr "Worked Example", .jstr "Practice", .jstr "Recap"])]

/-- The fallback module list for a clamped count. -/
def fallback_syllabus (topic : String) (count : ℤ) : List JsonVal :=
  (List.range count.toNat).map (fun i => fallback_module topic (i + 1))

/-- The fallback branch of `generate_syllabus` (syllabus.py:45-57):
`count = int(constraints.get("count_modules") or 6)` (a falsy value — absent,
`None`, `0`, `False`, `""` — defaults to 6; `int` may raise), then
`count = max(1, min(count, 10))`. -/
def syllabus_fallback (topic : String) (constraints : List (String × JsonVal)) :
    Except String (List JsonVal) := do
  let raw := objGet constraints "count_modules"
  let v : JsonVal := match raw with
    | none => .jnum 6
    | some x => if pyTruthy x then x else .jnum 6
  let count ← pyInt v
  let count := max 1 (min count 10)
  return fallback_syllabus topic count

/-- `generate_syllabus` (syllabus.py:31-60).  A chat-backend exception is
caught and leaves `content = ""` (syllabus.py:40-41), so the only inputs are
the constraints and `data`, the `safe_json_loads` of the chat output
(`none` when parsing failed, which covers missing output).  The guard is
`if not data or "modules" not in data or not isinstance(data["modules"], list)`
(syllabus.py:44) with Python's short-circuit `or`; the membership test and
the subscript can raise `TypeError`, which propagates. -/
def generate_syllabus (topic : String) (constraints : List (String × JsonVal))
    (data : Option JsonVal) : Except String (List JsonVal) :=
  match data with
  | none => syllabus_fallback topic constraints
  | some d =>
    if !pyTruthy d then syllabus_fallback topic constraints
    else do
      let hasModules ← pyContains "modules" d
      if !hasModules then syllabus_fallback topic constraints
      else
        let v ← pySubscript d "modules"
        match v with
        | .jarr mods => .ok mods
        | _ => syllabus_fallback topic constraints

/- ------------------------------------------------------------------ -/
/- Compilation engine: backend/app/ai/compile_manim.py                -/
/- ------------------------------------------------------------------ -/

/-- The environment `compile_manim_to_mp4` runs against: feature flags, tool
availability and each strategy's outcome (the path its output discovery
returns, or `none` on any failure — timeout, non-zero exit, missing tool or
missing output file).  Strategy runs are deterministic within one call. -/
structure CompileEnv where
  /-- `MANIM_ENABLE_DOCKER != "0"` (compile_manim.py:299). -/
  use_docker : Bool
  /-- `MANIM_ENABLE_LOCAL != "0"` (compile_manim.py:300). -/
  use_local : Bool
  /-- `MANIM_ENABLE_PLACEHOLDER != "0"` (compile_manim.py:301). -/
  use_placeholder : Bool
  /-- `bool(shutil.which("docker"))` (compile_manim.py:303). -/
  docker_which : Bool
  /-- `MANIM_LOCAL_FIRST != "0" or bool(os.getenv("VIRTUAL_ENV"))`
  (compile_manim.py:307). -/
  prefer_local : Bool
  /-- `_ensure_image(image)` (compile_manim.py:63-101,350). -/
  image_ok : Bool
  /-- `_try_local_manim(...)` (compile_manim.py:212-264). -/
  local_output : Option String
  /-- The docker run followed by `_check_outputs()` (compile_manim.py:351-397). -/
  docker_output : Option String
  /-- `_try_ffmpeg_placeholder(...)` (compile_manim.py:267-290), `none` when
  ffmpeg is unavailable or fails. -/
  placeholder_output : Option String
  /-- The final `_check_outputs()` (compile_manim.py:416-418). -/
  final_check : Option String

/-- `compile_manim_to_mp4` (compile_manim.py:293-420): the strategy cascade.
Every subprocess failure inside a strategy is caught in the source, so the
whole call is total and returns `Option String` — a media path or `None`. -/
def compile_manim_to_mp4 (env : CompileEnv) : Option String :=
  let docker_available := env.use_docker && env.docker_which
  match (if env.prefer_local && env.use_local then env.local_output else none) with
  | some p => some p
  | none =>
    match (if docker_available && env.image_ok then env.docker_output else none) with
    | some p => some p
    | none =>
      match (if env.use_local then env.local_output else none) with
      | some p => some p
      | none =>
        match (if env.use_placeholder then env.placeholder_output else none) with
        | some p => some p
        | none => env.final_check

/- ------------------------------------------------------------------ -/
/- Progress reporting: graph.py `report` and the stage percentages.   -/
/- ------------------------------------------------------------------ -/

/-- The percent reported after `done` of `total` compile jobs finished:
`60 + int((done / total) * 20)` (graph.py:145,274), i.e. `60 + ⌊20·done/total⌋`. -/
def compile_progress (total done : ℕ) : ℕ := 60 + done * 20 / total

/-- The percent values passed to the progress callback across one successful
build of `m` modules, in program order (graph.py:231,234,256,275,277,304,319):
5 and 20 around the syllabus stage, 60 after fan-out, one report per completed
compile job with `total = max 1 m`, then 80, 95 and 100. -/
def build_progress_reports (m : ℕ) : List ℕ :=
  [5, 20, 60]
    ++ (List.range m).map (fun d => compile_progress (max 1 m) (d + 1))
    ++ [80, 95, 100]

/-- The Python exceptions the `report` model distinguishes. -/
inductive PyExc where
  | runtimeError
  | typeError
  | other (msg : String)
deriving DecidableEq

/-- A progress callback as `report` (graph.py:54-60) can observe it.  Calling
an `async def` callback merely builds a coroutine and never raises by itself;
its body — which may raise `bodyRaises` — only runs inside the task that
`asyncio.create_task` schedules.  Calling a plain function runs it at once:
it raises `syncRaises`, or returns a non-awaitable value. -/
structure ProgressCallback where
  isAsync : Bool
  syncRaises : Option PyExc
  bodyRaises : Option PyExc

/-- `report` (graph.py:54-60): `asyncio.create_task(progress_cb(pct, status))`
inside `try … except RuntimeError`, with a direct synchronous call as the
handler.  With an async callback the coroutine is built, and either scheduled
(body errors stay in the detached task) or — without a running loop —
`create_task` raises `RuntimeError`, the handler re-calls the function, and
the resulting coroutine is discarded; `report` itself returns.  With a sync
callback the argument evaluation itself raises (only `RuntimeError` is
caught, and the handler's second call raises it again), or the call returns
a non-coroutine: under a running loop `create_task` then raises `TypeError`
(uncaught); without one it raises `RuntimeError` first and the handler's
plain call succeeds. -/
def report (loopRunning : Bool) (cb : Option ProgressCallback) : Except PyExc Unit :=
  match cb with
  | none => .ok ()
  | some c =>
    if c.isAsync then .ok ()
    else
      match c.syncRaises with
      | some e => .error e
      | none => if loopRunning then .error .typeError else .ok ()

/- ------------------------------------------------------------------ -/
/- Bounded-concurrency permit sets (claim C9).                        -/
/- ------------------------------------------------------------------ -/

/-- `int(env or default)` with the `except` branch restoring the default:
the capacity parsing shared by `_get_compile_sem` (compile_manim.py:42-44)
and `_get_openrouter_semaphore` (llm.py:33-35). -/
def parse_int_env (v : Option String) (default : ℤ) : ℤ :=
  match v with
  | none => default
  | some s =>
    if s.isEmpty then default
    else match pyStrToInt s with | some n => n | none => default

/-- The compile permit capacity: `max(1, int(MANIM_MAX_PARALLEL or 2))`
(compile_manim.py:39-47). -/
def compile_capacity (v : Option String) : ℕ := (max 1 (parse_int_env v 2)).toNat

/-- The remote-call permit capacity: `max(1, int(LLM_CONCURRENCY or 3))`
(llm.py:30-38). -/
def llm_capacity (v : Option String) : ℕ := (max 1 (parse_int_env v 3)).toNat

/-- A counting permit set: free permits and jobs currently inside the
guarded section. -/
structure SemState where
  available : ℕ
  running : ℕ
deriving DecidableEq

/-- The two transitions the code performs on a permit set: `sem.acquire()`
before entering the guarded section (`_limit_parallelism`,
compile_manim.py:50-60, and `async with sem` in llm.py:56) — enabled only
when a permit is free — and `sem.release()` on leaving it. -/
inductive SemStep : SemState → SemState → Prop
  | acquire (s : SemState) (h : 0 < s.available) :
      SemStep s ⟨s.available - 1, s.running + 1⟩
  | release (s : SemState) (h : 0 < s.running) :
      SemStep s ⟨s.available + 1, s.running - 1⟩

/-- States a permit set of capacity `cap` can reach from its initial state
(`Semaphore(cap)`: all permits free, nobody inside). -/
inductive SemReachable (cap : ℕ) : SemState → Prop
  | init : SemReachable cap ⟨cap, 0⟩
  | step {s t : SemState} : SemReachable cap s → SemStep s t → SemReachable cap t

/- ------------------------------------------------------------------ -/
/- Code synthesis & validator: backend/app/ai/nodes/manim_writer.py   -/
/- ------------------------------------------------------------------ -/

/-- Python constant values as `ast.Constant` carries them. -/
inductive PyConst where
  | intLit (n : ℤ)
  | floatLit (q : ℚ)
  | strLit (s : String)
  | boolLit (b : Bool)
  | noneLit
deriving DecidableEq

/-- The fragment of the Python expression AST the validator inspects:
names, attribute access, constants and calls; any other expression node is
kept as `exprs` with its sub-expressions, which is all `ast.walk` sees. -/
inductive PyExpr where
  | name (id : String)
  | attribute (value : PyExpr) (attr : String)
  | constant (c : PyConst)
  | call (func : PyExpr) (args : List PyExpr)
  | exprs (sub : List PyExpr)

/-- The fragment of the Python statement AST the validator inspects:
imports, class and function definitions; assignments, expression statements
and `for` loops are kept with their sub-parts, any other statement as
`otherStmt`. -/
inductive PyStmt where
  | importFrom (module : Option String) (names : List String)
  | importStmt (names : List String)
  | classDef (name : String) (bases : List PyExpr) (body : List PyStmt)
  | functionDef (name : String) (args : List String) (defaults : List PyExpr)
      (body : List PyStmt)
  | assign (target : String) (value : PyExpr)
  | exprStmt (e : PyExpr)
  | forStmt (target : String) (iter : PyExpr) (body : List PyStmt)
  | otherStmt (sub : List PyExpr) (body : List PyStmt)

/-- `ast.parse` output for a whole source file. -/
structure PyModule where
  body : List PyStmt

mutual
/-- Does `ast.walk` of the expression find `ast.Call` whose `func` is
`self.<m>` for some `m ∈ meths` (manim_writer.py:258-263)? -/
def exprSelfCall (meths : List String) : PyExpr → Bool
  | .name _ => false
  | .constant _ => false
  | .attribute v _ => exprSelfCall meths v
  | .call f args =>
    (match f with
     | .attribute (.name s) m => s == "self" && meths.contains m
     | _ => false)
    || exprSelfCall meths f || exprListSelfCall meths args
  | .exprs sub => exprListSelfCall meths sub

def exprListSelfCall (meths : List String) : List PyExpr → Bool
  | [] => false
  | e :: es => exprSelfCall meths e || exprListSelfCall meths es
end

mutual
/-- The statement-level part of the same `ast.walk` search. -/
def stmtSelfCall (meths : List String) : PyStmt → Bool
  | .importFrom _ _ => false
  | .importStmt _ => false
  | .classDef _ bases body => exprListSelfCall meths bases || stmtListSelfCall meths body
  | .functionDef _ _ defaults body =>
      exprListSelfCall meths defaults || stmtListSelfCall meths body
  | .assign _ v => exprSelfCall meths v
  | .exprStmt e => exprSelfCall meths e
  | .forStmt _ it body => exprSelfCall meths it || stmtListSelfCall meths body
  | .otherStmt sub body => exprListSelfCall meths sub || stmtListSelfCall meths body

def stmtListSelfCall (meths : List String) : List PyStmt → Bool
  | [] => false
  | s :: ss => stmtSelfCall meths s || stmtListSelfCall meths ss
end

/-- `_BANNED_IMPORTS` (manim_writer.py:39-53). -/
def _BANNED_IMPORTS : List String :=
  ["pandas", "numpy", "matplotlib", "seaborn", "scipy", "sklearn",
   "requests", "pil", "pillow", "networkx", "manim_voiceover", "gtts", "pyttsx3"]

/-- `(name or "").split(".")[0].lower() in _BANNED_IMPORTS`
(manim_writer.py:64,67). -/
def bannedModuleName (s : String) : Bool :=
  _BANNED_IMPORTS.contains (String.mk (lowerChars (s.data.takeWhile (fun c => c != '.'))))

mutual
/-- The `ast.walk` of `_has_banned_imports` (manim_writer.py:61-69): imports
can sit inside class, function and compound-statement bodies too. -/
def stmtHasBannedImport : PyStmt → Bool
  | .importStmt names => names.any bannedModuleName
  | .importFrom m _ => bannedModuleName (m.getD "")
  | .classDef _ _ body => stmtListHasBannedImport body
  | .functionDef _ _ _ body => stmtListHasBannedImport body
  | .forStmt _ _ body => stmtListHasBannedImport body
  | .otherStmt _ body => stmtListHasBannedImport body
  | .assign _ _ => false
  | .exprStmt _ => false

def stmtListHasBannedImport : List PyStmt → Bool
  | [] => false
  | s :: ss => stmtHasBannedImport s || stmtListHasBannedImport ss
end

/-- `_has_banned_imports` (manim_writer.py:56-70): `ast.parse` failure is
caught and reported as `False`; `pyparse` is the Python parser, an explicit
parameter of the embedding (`.error msg` for a `SyntaxError` with message
`msg`). -/
def _has_banned_imports (pyparse : String → Except String PyModule)
    (code : String) : Bool :=
  match pyparse code with
  | .error _ => false
  | .ok t => stmtListHasBannedImport t.body

/-- `_is_scene_base` (manim_writer.py:241-246). -/
def _is_scene_base : PyExpr → Bool
  | .name id => pyEndsWith id "Scene"
  | .attribute _ a => pyEndsWith a "Scene"
  | _ => false

/-- The top-level import scan of `_verify_scene_structure`
(manim_writer.py:217-228). -/
def importIsManim : PyStmt → Bool
  | .importFrom m _ => pyStartsWith (m.getD "") "manim"
  | .importStmt names => names.any (fun n => pyStartsWith n "manim")
  | _ => false

/-- The first top-level `ClassDef` named `Lesson` (manim_writer.py:232-236). -/
def findLessonClass : List PyStmt → Option (List PyExpr × List PyStmt)
  | [] => none
  | .classDef n bases body :: rest =>
      if n == "Lesson" then some (bases, body) else findLessonClass rest
  | _ :: rest => findLessonClass rest

/-- `const_val in (2, 2.0)` (manim_writer.py:283-286): Python numeric
equality, under which `2 == 2.0` but `True ≠ 2`. -/
def isConstTwo : PyConst → Bool
  | .intLit n => n == 2
  | .floatLit q => q == 2
  | _ => false

/-- The `say` signature checks of `_verify_scene_structure`
(manim_writer.py:268-288): parameters must be `(self, text, t)` and `t`
must default to the numeric literal 2 (`default_map` pairs the trailing
parameters with `args.defaults`). -/
def checkSayDef (args : List String) (defaults : List PyExpr) : List String :=
  if args.length < 3 || args.getD 0 "" != "self" || args.getD 1 "" != "text"
      || args.getD 2 "" != "t" then
    ["`say` helper must accept `(self, text, t)` parameters, matching the recommended signature."]
  else
    let default_map := (args.drop (args.length - defaults.length)).zip defaults
    match default_map.reverse.find? (fun p => p.1 == "t") with
    | none =>
      ["`say` helper must provide a default duration for `t`, e.g., `t: float = 2`. See Manim docs on custom methods."]
    | some p =>
      match p.2 with
      | .constant c =>
        if isConstTwo c then []
        else ["`say` helper duration default should be 2 seconds to match pacing guidance."]
      | _ => ["`say` helper duration default should be the numeric literal 2."]

/-- The methods whose `self.<m>(...)` calls count as animation calls inside
`construct` (manim_writer.py:261). -/
def animMeths : List String := ["play", "say", "add", "wait"]

/-- One step of the loop over the `Lesson` class body
(manim_writer.py:253-288), folding `(has_construct, has_say, errors)`. -/
def checkClassStmt (acc : Bool × Bool × List String) : PyStmt → Bool × Bool × List String
  | .functionDef name args defaults body =>
    if name == "construct" then
      let hasAnim := exprListSelfCall animMeths defaults || stmtListSelfCall animMeths body
      (true, acc.2.1,
        if hasAnim then acc.2.2
        else acc.2.2 ++ ["`construct` must include at least one animation call such as `self.play(...)` as shown in the tutorials."])
    else if name == "say" then
      (acc.1, true, acc.2.2 ++ checkSayDef args defaults)
    else acc
  | _ => acc

/-- `_verify_scene_structure` (manim_writer.py:213-294). -/
def _verify_scene_structure (m : PyModule) : Bool × List String :=
  let errors0 : List String :=
    if m.body.any importIsManim then []
    else ["Missing `from manim import *` or equivalent Manim import."]
  match findLessonClass m.body with
  | none =>
    (false, errors0 ++ ["Missing class `Lesson` inheriting from Scene as required by the docs."])
  | some (bases, body) =>
    let errors1 :=
      if bases.any _is_scene_base then errors0
      else errors0 ++ ["Class `Lesson` must inherit from `Scene` (or a Scene subclass)."]
    let res := body.foldl checkClassStmt (false, false, errors1)
    let errors2 := res.2.2
      ++ (if res.1 then [] else ["Missing `construct` method in `Lesson` Scene."])
      ++ (if res.2.1 then [] else ["Missing `say` helper required for captions (see tutorials on text overlays)."])
    (errors2.isEmpty, errors2)

/-- `_has_animation_calls` (manim_writer.py:96-109): substring heuristics on
the lowercased source. -/
def animation_markers : List String :=
  ["self.play(", "write(", "create(", "transform(", "fadein(", "fadeout(",
   "growfromcenter(", "laggedstart("]

/-- `_has_animation_calls` (manim_writer.py:96-109). -/
def _has_animation_calls (code : String) : Bool :=
  animation_markers.any (fun m => hasSub m.data (lowerChars code.data))

/-- Split at the first occurrence of `needle`: `some (before, after)` with
`before ++ needle ++ after` the input, or `none` when absent. -/
def splitAtSub (needle : List Char) : List Char → Option (List Char × List Char)
  | [] => if needle.isEmpty then some ([], []) else none
  | c :: t =>
    if needle.isPrefixOf (c :: t) then some ([], (c :: t).drop needle.length)
    else
      match splitAtSub needle t with
      | some (pre, post) => some (c :: pre, post)
      | none => none

/-- Python `hay.find(needle)` as an `Option`. -/
def findSubIdx (needle hay : List Char) : Option ℕ :=
  match splitAtSub needle hay with
  | some (pre, _) => some pre.length
  | none => none

/-- The fence delimiter of the extraction regex. -/
def fenceChars : List Char := "```".data

/-- The scan of `re.findall(r"```(?:python)?\s*([\s\S]*?)```", text, IGNORECASE)`
(manim_writer.py:167): find an opening fence, drop an optional
case-insensitive `python` tag and any whitespace, and capture lazily up to
the next fence; repeat after it.  Each match consumes a closing fence, so
the number of matches is below the text length and the fuel — started at
the text length — never runs out before the scan ends. -/
def fenceBlocksAux : ℕ → List Char → List (List Char)
  | 0, _ => []
  | fuel + 1, cs =>
    match splitAtSub fenceChars cs with
    | none => []
    | some (_, rest) =>
      let rest1 := if lowerChars (rest.take 6) == "python".data then rest.drop 6 else rest
      let rest2 := rest1.dropWhile pyIsSpace
      match splitAtSub fenceChars rest2 with
      | none => []
      | some (block, rest3) => block :: fenceBlocksAux fuel rest3

/-- All fenced code blocks of the response text. -/
def fenceBlocks (cs : List Char) : List (List Char) := fenceBlocksAux cs.length cs

/-- `_extract_manim_code` (manim_writer.py:161-180): prefer a fenced block
holding `from manim` or `class Lesson`, else the first fenced block, else
scan the lowercased text for the markers `from manim` and `class Lesson`
(the second can never match lowercased text), else the stripped text. -/
def _extract_manim_code (raw : String) : String :=
  let text := stripChars raw.data
  if text.isEmpty then ""
  else
    let fenced := fenceBlocks text
    if !fenced.isEmpty then
      match fenced.find? (fun b =>
          let bs := stripChars b
          hasSub "from manim".data bs || hasSub "class Lesson".data bs) with
      | some b => String.mk (stripChars b)
      | none => String.mk (stripChars (fenced.headD []))
    else
      match findSubIdx "from manim".data (lowerChars text) with
      | some idx => String.mk (stripChars (text.drop idx))
      | none =>
        match findSubIdx "class Lesson".data (lowerChars text) with
        | some idx => String.mk (stripChars (text.drop idx))
        | none => String.mk text

/-- Python `str.splitlines()` for the newline forms `\n`, `\r\n` and `\r`
(the forms this source can contain): no entry for a trailing terminator. -/
def splitlinesAux : List Char → List Char → List (List Char)
  | [], acc => if acc.isEmpty then [] else [acc.reverse]
  | '\r' :: '\n' :: rest, acc => acc.reverse :: splitlinesAux rest []
  | '\n' :: rest, acc => acc.reverse :: splitlinesAux rest []
  | '\r' :: rest, acc => acc.reverse :: splitlinesAux rest []
  | c :: rest, acc => splitlinesAux rest (c :: acc)

/-- Python `code.splitlines()`. -/
def splitlines (cs : List Char) : List (List Char) := splitlinesAux cs []

/-- Python `"\n".join(lines)`. -/
def joinLines : List (List Char) → List Char
  | [] => []
  | [l] => l
  | l :: ls => l ++ '\n' :: joinLines ls

/-- The `say_block` lines `_ensure_say_helper` inserts
(manim_writer.py:196-208), with the four-space class indentation applied. -/
def say_block : List (List Char) :=
  ["    def say(self, text: str, t: float = 2):",
   "        bar = Rectangle(width=FRAME_WIDTH, height=0.8, fill_opacity=0.6, fill_color=BLACK, stroke_width=0)",
   "        bar.to_edge(DOWN)",
   "        caption = Text(text).scale(0.45)",
   "        caption.move_to(bar.get_center())",
   "        group = VGroup(bar, caption)",
   "        self.play(FadeIn(group))",
   "        self.wait(t)",
   "        self.play(FadeOut(group))",
   ""].map String.data

/-- The first line whose `strip()` starts with `class Lesson`
(manim_writer.py:188-192). -/
def headerIdx (lines : List (List Char)) : Option ℕ :=
  lines.findIdx? (fun l => "class Lesson".data.isPrefixOf (stripChars l))

/-- `_ensure_say_helper` (manim_writer.py:183-210) over characters: return
the code unchanged when it has no `class Lesson` or already has `def say(`
— or when no line starts with `class Lesson` —, else splice `say_block` in
right after the header line and re-join with `\n`. -/
def _ensure_say_helper_chars (code : List Char) : List Char :=
  if !hasSub "class Lesson".data code || hasSub "def say(".data code then code
  else
    let lines := splitlines code
    match headerIdx lines with
    | none => code
    | some i => joinLines (lines.take (i + 1) ++ say_block ++ lines.drop (i + 1))

/-- `_ensure_say_helper` (manim_writer.py:183-210). -/
def _ensure_say_helper (code : String) : String :=
  String.mk (_ensure_say_helper_chars code.data)

/-- `_fallback_lesson` (manim_writer.py:73-93): a minimal scene carrying the
message (apostrophes escaped) in a note. -/
def _fallback_lesson (msg : String) : String :=
  "from manim import *\n\n"
  ++ "class Lesson(Scene):\n"
  ++ "    def say(self, text: str, t: float = 2):\n"
  ++ "        bar = Rectangle(width=FRAME_WIDTH, height=0.8, fill_opacity=0.6, fill_color=BLACK, stroke_width=0)\n"
  ++ "        bar.to_edge(DOWN)\n"
  ++ "        caption = Text(text).scale(0.45)\n"
  ++ "        caption.move_to(bar.get_center())\n"
  ++ "        grp = VGroup(bar, caption)\n"
  ++ "        self.play(FadeIn(grp))\n"
  ++ "        self.wait(t)\n"
  ++ "        self.play(FadeOut(grp))\n"
  ++ "    def construct(self):\n"
  ++ "        title = Text('Lesson').scale(1.2)\n"
  ++ "        note = Text('" ++ escapeQuotes msg ++ "').scale(0.6)\n"
  ++ "        group = VGroup(title, note).arrange(DOWN, buff=0.5)\n"
  ++ "        self.play(FadeIn(group))\n"
  ++ "        self.say('Auto-generated fallback scene')\n"
  ++ "        self.wait(0.5)\n"

/-- `(module.get("title") or "Lesson").replace("'", "\\'")`
(manim_writer.py:114). -/
def tutorialTitle (module : ModuleSpec) : String :=
  escapeQuotes (if module.title.isEmpty then "Lesson" else module.title)

/-- The bullet preparation of `_fallback_tutorial` (manim_writer.py:115-120):
keep non-empty outline entries, cap at four, escape apostrophes. -/
def tutorialBullets (module : ModuleSpec) : List String :=
  ((module.outline.filter (fun b => !b.isEmpty)).take 4).map escapeQuotes

/-- `blines` (manim_writer.py:121): the joined bullet `Text` constructors, or
the overview default when no bullet survived. -/
def tutorialBlines (module : ModuleSpec) : String :=
  let joined := joinStrings ",\n            "
    ((tutorialBullets module).map (fun b => "Text('• " ++ b ++ "').scale(0.5)"))
  if joined.isEmpty then "Text('• Overview').scale(0.5)" else joined

/-- `_fallback_tutorial` (manim_writer.py:112-158), character for character.
Note the second `self.say` line: the Python literal `'Let\'s see a quick
example'` holds a bare apostrophe (`\'` in a double-quoted Python string is
just `'`), rendered here as `Let's`. -/
def _fallback_tutorial (module : ModuleSpec) : String :=
  "from manim import *\n\n"
  ++ "class Lesson(Scene):\n"
  ++ "    def say(self, text: str, t: float = 2):\n"
  ++ "        bar = Rectangle(width=FRAME_WIDTH, height=0.8, fill_opacity=0.6, fill_color=BLACK, stroke_width=0)\n"
  ++ "        bar.to_edge(DOWN)\n"
  ++ "        caption = Text(text).scale(0.45)\n"
  ++ "        caption.move_to(bar.get_center())\n"
  ++ "        grp = VGroup(bar, caption)\n"
  ++ "        self.play(FadeIn(grp))\n"
  ++ "        self.wait(t)\n"
  ++ "        self.play(FadeOut(grp))\n"
  ++ "    def construct(self):\n"
  ++ "        title = Text('" ++ tutorialTitle module ++ "').scale(0.9)\n"
  ++ "        self.play(Write(title))\n"
  ++ "        self.say('Today: " ++ tutorialTitle module ++ "')\n"
  ++ "        self.wait(0.3)\n"
  ++ "        bullets = VGroup(\n"
  ++ "            " ++ tutorialBlines module ++ "\n"
  ++ "        ).arrange(DOWN, aligned_edge=LEFT, buff=0.3).next_to(title, DOWN, buff=0.6).align_to(title, LEFT)\n"
  ++ "        for line in bullets:\n"
  ++ "            self.play(FadeIn(line, shift=RIGHT))\n"
  ++ "            self.wait(0.3)\n"
  ++ "        self.say('Let's see a quick example')\n"
  ++ "        ax = Axes(x_range=[0, 4, 1], y_range=[0, 4, 1], tips=False).scale(0.8).to_edge(DOWN)\n"
  ++ "        dot = Dot(ax.coords_to_point(0, 0), color=YELLOW)\n"
  ++ "        path = VMobject(color=YELLOW)\n"
  ++ "        path.set_points_as_corners([ax.coords_to_point(0,0), ax.coords_to_point(1,1), ax.coords_to_point(2,1.5), ax.coords_to_point(3,2.5)])\n"
  ++ "        self.play(Create(ax))\n"
  ++ "        self.play(FadeIn(dot))\n"
  ++ "        self.play(MoveAlongPath(dot, path), run_time=3)\n"
  ++ "        self.say('Example complete — notice the trend')\n"
  ++ "        recap = VGroup(Text('Recap').scale(0.7), Text('• Key idea 1').scale(0.5), Text('• Key idea 2').scale(0.5))\n"
  ++ "        recap.arrange(DOWN, aligned_edge=LEFT, buff=0.25).to_edge(UP)\n"
  ++ "        self.play(ReplacementTransform(VGroup(title, bullets), recap))\n"
  ++ "        self.wait(1)\n"

/-- What one iteration of the `write_manim_code` loop decides
(manim_writer.py:325-394). -/
inductive AttemptStep where
  | accepted (code : String)
  | fallbackT
  | fallbackL (msg : String)
  | retry (feedback : List String)

/-- One iteration of the attempt loop of `write_manim_code`
(manim_writer.py:325-394).  `rawRes` is the chat call's outcome (`.error`
for an exception, which the source catches and turns into `raw = ""`);
`isLast` tells whether `attempt >= max_attempts`, routing each failure to
its fallback instead of a retry. -/
def attempt_step (pyparse : String → Except String PyModule)
    (rawRes : Except Unit String) (isLast : Bool) : AttemptStep :=
  let raw := match rawRes with | .error _ => "" | .ok s => s
  let code := _extract_manim_code raw
  if code.isEmpty then
    if isLast then .fallbackT
    else .retry ["No executable Python source was returned. Reply with only the Manim code starting with `from manim import *`."]
  else
    let code := _ensure_say_helper code
    if _has_banned_imports pyparse code then
      if isLast then .fallbackL "External libraries omitted — using Manim primitives only"
      else .retry ["Do not import third-party libraries; rely solely on `from manim import *` and core classes."]
    else
      match pyparse code with
      | .error e =>
        if isLast then .fallbackL ("Syntax error sanitized: " ++ e)
        else .retry ["Fix the Python syntax error reported: " ++ e]
      | .ok tree =>
        let v := _verify_scene_structure tree
        if !v.1 then
          if isLast then .fallbackT else .retry v.2
        else if !_has_animation_calls code then .fallbackT
        else .accepted code

/-- `write_manim_code` (manim_writer.py:319-398) with `max_attempts = 2`:
the returned source plus the number of generative attempts issued.  The
oracle gives each attempt's chat outcome (the retry feedback only changes
the prompt, which the oracle already ranges over); `pyparse` is the Python
parser.  Every failure inside the loop is caught by the source — the
function is total and never raises. -/
def write_manim_code (pyparse : String → Except String PyModule)
    (oracle : ℕ → Except Unit String) (module : ModuleSpec) : String × ℕ :=
  match attempt_step pyparse (oracle 1) false with
  | .accepted c => (c, 1)
  | .fallbackT => (_fallback_tutorial module, 1)
  | .fallbackL m => (_fallback_lesson m, 1)
  | .retry _ =>
    match attempt_step pyparse (oracle 2) true with
    | .accepted c => (c, 2)
    | .fallbackT => (_fallback_tutorial module, 2)
    | .fallbackL m => (_fallback_lesson m, 2)
    | .retry _ => (_fallback_tutorial module, 2)

/- ------------------------------------------------------------------ -/
/- Concrete inputs used by counterexamples and witnesses.             -/
/- ------------------------------------------------------------------ -/

/-- A module spec as the fallback syllabus produces one. -/
def demoModule : ModuleSpec :=
  { id := "m1", title := "Module 1: Binary Search",
    objectives := ["Explain key ideas", "Apply basic methods"],
    outline := ["Introduction", "Core Concepts", "Worked Example", "Practice", "Recap"] }

/-- A source that mentions `class Lesson` only inside a trailing comment, so
no line's stripped form starts with `class Lesson`. -/
def c10_input : String := "x = 1  # demo of class Lesson"

/-- A source with a real `class Lesson` header on line 1 (0-based) and no
`say` helper. -/
def c10_demo : String :=
  "from manim import *\nclass Lesson(Scene):\n    def construct(self):\n        self.play(Write(t))\n"

/- ------------------------------------------------------------------ -/
/- Helper lemmas.                                                     -/
/- ------------------------------------------------------------------ -/

theorem hasSub_nil (hay : List Char) : hasSub [] hay = true := by
  cases hay <;> simp [hasSub, List.isPrefixOf]

theorem isPrefixOf_append {n a : List Char} (b : List Char)
    (h : n.isPrefixOf a = true) : n.isPrefixOf (a ++ b) = true := by
  induction n generalizing a with
  | nil => simp [List.isPrefixOf]
  | cons x n ih =>
    cases a with
    | nil => simp [List.isPrefixOf] at h
    | cons y a =>
      simp only [List.isPrefixOf, List.cons_append, Bool.and_eq_true] at h ⊢
      exact ⟨h.1, ih h.2⟩

theorem hasSub_cons {n t : List Char} (c : Char) (h : hasSub n t = true) :
    hasSub n (c :: t) = true := by
  simp only [hasSub, Bool.or_eq_true]
  exact Or.inr h

theorem hasSub_append_left {n a : List Char} (b : List Char)
    (h : hasSub n a = true) : hasSub n (a ++ b) = true := by
  induction a with
  | nil =>
    simp only [hasSub] at h
    have : n = [] := by
      cases n with
      | nil => rfl
      | cons x xs => simp at h
    subst this
    exact hasSub_nil b
  | cons c a ih =>
    simp only [hasSub, Bool.or_eq_true] at h
    rcases h with h | h
    · simp only [List.cons_append, hasSub, Bool.or_eq_true]
      exact Or.inl (isPrefixOf_append b h)
    · simp only [List.cons_append, hasSub, Bool.or_eq_true]
      exact Or.inr (ih h)

theorem hasSub_append_right {n b : List Char} (a : List Char)
    (h : hasSub n b = true) : hasSub n (a ++ b) = true := by
  induction a with
  | nil => simpa using h
  | cons c a ih => exact List.cons_append c a b ▸ hasSub_cons c ih

theorem hasSub_joinLines {n l : List Char} {ls : List (List Char)}
    (hm : l ∈ ls) (h : hasSub n l = true) : hasSub n (joinLines ls) = true := by
  induction ls with
  | nil => cases hm
  | cons l0 rest ih =>
    cases rest with
    | nil =>
      rcases List.mem_cons.mp hm with h0 | h0
      · subst h0; simpa [joinLines] using h
      · cases h0
    | cons l1 rest2 =>
      rcases List.mem_cons.mp hm with h0 | h0
      · subst h0
        exact hasSub_append_left _ h
      · have := ih h0
        exact hasSub_append_right l0 (hasSub_cons '\n' this)

theorem pyDictInsert_fresh {α : Type} (d : List (String × α)) (k : String) (v : α)
    (h : ∀ p ∈ d, p.1 ≠ k) : pyDictInsert d k v = d ++ [(k, v)] := by
  unfold pyDictInsert
  have hany : d.any (fun p => p.1 == k) = false := by
    rw [List.any_eq_false]
    intro p hp
    simpa using h p hp
  rw [hany]
  simp

theorem pyDict_go {α : Type} (xs d : List (String × α))
    (h : ((d ++ xs).map Prod.fst).Nodup) :
    xs.foldl (fun d p => pyDictInsert d p.1 p.2) d = d ++ xs := by
  induction xs generalizing d with
  | nil => simp
  | cons p xs ih =>
    have hfresh : ∀ q ∈ d, q.1 ≠ p.1 := by
      intro q hq
      have h' := h
      rw [List.map_append, List.nodup_append] at h'
      have : p.1 ∈ (p :: xs).map Prod.fst := by simp
      intro he
      exact h'.2.2 (he ▸ List.mem_map_of_mem Prod.fst hq) this
    have hins : pyDictInsert d p.1 p.2 = d ++ [p] := by
      simpa using pyDictInsert_fresh d p.1 p.2 hfresh
    rw [List.foldl_cons, hins, ih (d ++ [p]) (by simpa using h)]
    simp

theorem pyDict_of_nodup {α : Type} (xs : List (String × α))
    (h : (xs.map Prod.fst).Nodup) : pyDict xs = xs := by
  simpa using pyDict_go xs [] (by simpa using h)

theorem chat_go_step (oracle : ℕ → Except String String) (retries attempt fuel : ℕ)
    (e : String) (he : oracle attempt = .error e)
    (hr : _is_retryable_error e = true) (hlt : attempt < retries) :
    chat_go oracle retries attempt (fuel + 1)
      = ((chat_go oracle retries (attempt + 1) fuel).1,
         (chat_go oracle retries (attempt + 1) fuel).2 + 1) := by
  rw [chat_go, he]
  simp [hr, Nat.not_le.mpr hlt]

theorem chat_go_raise (oracle : ℕ → Except String String) (retries attempt fuel : ℕ)
    (e : String) (he : oracle attempt = .error e)
    (hstop : retries ≤ attempt ∨ _is_retryable_error e = false) :
    chat_go oracle retries attempt (fuel + 1) = (.error e, 1) := by
  rw [chat_go, he]
  rcases hstop with h | h <;> simp [h]

theorem chat_go_all_retryable (oracle : ℕ → Except String String)
    (retries : ℕ) (errs : ℕ → String)
    (h : ∀ i, 1 ≤ i → i ≤ retries →
      oracle i = .error (errs i) ∧ _is_retryable_error (errs i) = true) :
    ∀ fuel attempt, 1 ≤ attempt → attempt + fuel = retries + 1 → 1 ≤ fuel →
      chat_go oracle retries attempt fuel = (.error (errs retries), fuel) := by
  intro fuel
  induction fuel with
  | zero => intro attempt _ _ hf; omega
  | succ f ih =>
    intro attempt h1 hsum _
    have hle : attempt ≤ retries := by omega
    have ha := h attempt h1 hle
    rcases Nat.eq_zero_or_pos f with hf0 | hfpos
    · subst hf0
      have heq : attempt = retries := by omega
      rw [heq] at ha ⊢
      exact chat_go_raise oracle retries retries 0 (errs retries) ha.1 (Or.inl le_rfl)
    · have hlt : attempt < retries := by omega
      rw [chat_go_step oracle retries attempt f (errs attempt) ha.1 ha.2 hlt,
        ih (attempt + 1) (by omega) (by omega) (by omega)]

/- ------------------------------------------------------------------ -/
/- Claim theorems.                                                    -/
/- ------------------------------------------------------------------ -/

/-- C1: for a syllabus whose module ids are unique (the data model's
invariant for `ModuleSpec`), the fan-out stage's artifact map has exactly
one entry per syllabus `ModuleSpec`, keyed by that module's id — no
duplicate keys, no extra and no missing entries. -/
theorem fanout_one_entry_per_module
    (specs : List ModuleSpec) (textGen codeGen : ModuleSpec → String)
    (gimGen : ModuleSpec → JsonVal)
    (h : (specs.map ModuleSpec.id).Nodup) :
    _fanout specs textGen codeGen gimGen
      = specs.map (fun s => (s.id, process_module textGen codeGen gimGen s)) ∧
    (_fanout specs textGen codeGen gimGen).map Prod.fst = specs.map ModuleSpec.id := by
  have hxs : (specs.map (process_module textGen codeGen gimGen)).map
      (fun m => (m.module_id, m))
      = specs.map (fun s => (s.id, process_module textGen codeGen gimGen s)) := by
    rw [List.map_map]; rfl
  have hkeys :
      ((specs.map (fun s => (s.id, process_module textGen codeGen gimGen s))).map Prod.fst)
        = specs.map ModuleSpec.id := by
    rw [List.map_map]; rfl
  constructor
  · unfold _fanout
    rw [hxs]
    exact pyDict_of_nodup _ (by rw [hkeys]; exact h)
  · unfold _fanout
    rw [hxs, pyDict_of_nodup _ (by rw [hkeys]; exact h), hkeys]

/-- Witness for C1: a concrete two-module syllabus. -/
theorem fanout_one_entry_per_module_witness :
    _fanout [⟨"m1", "A", [], []⟩, ⟨"m2", "B", [], []⟩]
        (fun _ => "t") (fun _ => "c") (fun _ => .jnull)
      = [("m1", process_module (fun _ => "t") (fun _ => "c") (fun _ => .jnull)
            ⟨"m1", "A", [], []⟩),
         ("m2", process_module (fun _ => "t") (fun _ => "c") (fun _ => .jnull)
            ⟨"m2", "B", [], []⟩)] :=
  ((fanout_one_entry_per_module [⟨"m1", "A", [], []⟩, ⟨"m2", "B", [], []⟩]
      (fun _ => "t") (fun _ => "c") (fun _ => .jnull) (by decide)).1).trans rfl

/-- C2: with the default budget of 5 attempts, a run whose every generative
call raises a transient-signature error retries through all 5 attempts and
propagates the last such error; an error matching no transient signature on
the first attempt propagates at once, after a single call. -/
theorem gateway_retry_classification :
    (∀ (oracle : ℕ → Except String String) (errs : ℕ → String),
      (∀ i, 1 ≤ i → i ≤ LLM_MAX_RETRIES_default →
        oracle i = .error (errs i) ∧ _is_retryable_error (errs i) = true) →
      openrouter_chat oracle LLM_MAX_RETRIES_default
        = (.error (errs LLM_MAX_RETRIES_default), LLM_MAX_RETRIES_default)) ∧
    (∀ (oracle : ℕ → Except String String) (e : String),
      oracle 1 = .error e → _is_retryable_error e = false →
      openrouter_chat oracle LLM_MAX_RETRIES_default = (.error e, 1)) := by
  constructor
  · intro oracle errs h
    exact chat_go_all_retryable oracle 5 errs h 5 1 (by norm_num) (by norm_num) (by norm_num)
  · intro oracle e he hr
    exact chat_go_raise oracle 5 1 4 e he (Or.inr hr)

/-- Witness for C2: a permanently rate-limited run exhausts 5 calls and a
fatal-error run stops after 1. -/
theorem gateway_retry_classification_witness :
    openrouter_chat (fun _ => .error "HTTP 429 Too Many Requests")
        LLM_MAX_RETRIES_default = (.error "HTTP 429 Too Many Requests", 5) ∧
    openrouter_chat (fun _ => .error "invalid api key")
        LLM_MAX_RETRIES_default = (.error "invalid api key", 1) :=
  ⟨gateway_retry_classification.1 (fun _ => .error "HTTP 429 Too Many Requests")
      (fun _ => "HTTP 429 Too Many Requests")
      (fun _ _ _ => ⟨rfl, show _is_retryable_error "HTTP 429 Too Many Requests" = true by decide⟩),
   gateway_retry_classification.2 (fun _ => .error "invalid api key")
      "invalid api key" rfl (by decide)⟩

/-- C4: with the container strategy unavailable the cascade returns the local
strategy's output; with local also unavailable it returns the placeholder's;
with all three unavailable (and no stray output file) it returns `none` —
and, being a total Lean function, it never raises. -/
theorem compile_cascade_degrades (env : CompileEnv)
    (hd : env.use_docker = false ∨ env.docker_which = false) :
    (∀ p, env.use_local = true → env.local_output = some p →
        compile_manim_to_mp4 env = some p) ∧
    (∀ p, env.local_output = none → env.use_placeholder = true →
        env.placeholder_output = some p → compile_manim_to_mp4 env = some p) ∧
    (env.local_output = none → env.placeholder_output = none →
        env.final_check = none → compile_manim_to_mp4 env = none) := by
  have hdock : (env.use_docker && env.docker_which) = false := by
    rcases hd with h | h <;> simp [h]
  refine ⟨?_, ?_, ?_⟩
  · intro p hl hlo
    cases hpl : env.prefer_local <;>
      simp [compile_manim_to_mp4, hdock, hl, hlo, hpl]
  · intro p hlo hup hpo
    cases hul : env.use_local <;> cases hpl : env.prefer_local <;>
      simp [compile_manim_to_mp4, hdock, hlo, hup, hpo, hpl, hul]
  · intro hlo hpo hfc
    cases hul : env.use_local <;> cases hpl : env.prefer_local <;>
      cases hup : env.use_placeholder <;>
      simp [compile_manim_to_mp4, hdock, hlo, hpo, hfc, hul, hpl, hup]

/-- Witness for C4: three concrete environments without docker. -/
theorem compile_cascade_degrades_witness :
    compile_manim_to_mp4
        ⟨true, true, true, false, true, false, some "out.mp4", none, none, none⟩
      = some "out.mp4" ∧
    compile_manim_to_mp4
        ⟨true, true, true, false, true, false, none, none, some "ph.mp4", none⟩
      = some "ph.mp4" ∧
    compile_manim_to_mp4
        ⟨true, true, true, false, true, false, none, none, none, none⟩ = none :=
  ⟨(compile_cascade_degrades _ (Or.inr rfl)).1 "out.mp4" rfl rfl,
   (compile_cascade_degrades _ (Or.inr rfl)).2.1 "ph.mp4" rfl rfl rfl,
   (compile_cascade_degrades _ (Or.inr rfl)).2.2 rfl rfl rfl⟩

/-- C5: the retry delay is the exponential backoff `0.8 · 2^(n-1)` capped at
20 seconds plus the jitter `j ∈ [0, 0.3]`: it lies between the capped
backoff and the capped backoff plus 0.3, never exceeds 20, and — ignoring
jitter — is non-decreasing in the attempt number. -/
theorem backoff_delay_schedule (n : ℕ) (j : ℚ)
    (hn : 1 ≤ n) (h0 : 0 ≤ j) (h3 : j ≤ 0.3) :
    _backoff_delay n 0 = min 20 (0.8 * 2 ^ (n - 1)) ∧
    _backoff_delay n 0 ≤ _backoff_delay n j ∧
    _backoff_delay n j ≤ _backoff_delay n 0 + 0.3 ∧
    _backoff_delay n j ≤ 20 ∧
    _backoff_delay n 0 ≤ _backoff_delay (n + 1) 0 := by
  unfold _backoff_delay
  have hpow : (2:ℚ) ^ (n - 1) ≤ 2 ^ (n + 1 - 1) :=
    pow_le_pow_right₀ (by norm_num) (by omega)
  refine ⟨by rw [add_zero], min_le_min le_rfl (by linarith), ?_, min_le_left _ _, ?_⟩
  · rcases le_total ((0.8 : ℚ) * 2 ^ (n - 1)) 20 with h | h
    · rw [add_zero, min_eq_right h]
      calc min 20 (0.8 * 2 ^ (n - 1) + j) ≤ 0.8 * 2 ^ (n - 1) + j := min_le_right _ _
        _ ≤ 0.8 * 2 ^ (n - 1) + 0.3 := by linarith
    · rw [add_zero, min_eq_left h]
      have hm : min 20 (0.8 * 2 ^ (n - 1) + j) ≤ 20 := min_le_left _ _
      linarith
  · have := mul_le_mul_of_nonneg_left hpow (by norm_num : (0:ℚ) ≤ 0.8)
    exact min_le_min le_rfl (by linarith)

/-- Witness for C5 at attempt 3 with zero jitter. -/
theorem backoff_delay_schedule_witness :
    _backoff_delay 3 0 = min 20 (0.8 * 2 ^ (3 - 1)) ∧
    _backoff_delay 3 0 ≤ _backoff_delay 4 0 :=
  ⟨(backoff_delay_schedule 3 0 (by norm_num) (by norm_num) (by norm_num)).1,
   (backoff_delay_schedule 3 0 (by norm_num) (by norm_num) (by norm_num)).2.2.2.2⟩

set_option maxRecDepth 8000 in
/-- C3 (code-bug evidence): with both generation attempts yielding no code,
`write_manim_code` stops after its 2 attempts and returns
`_fallback_tutorial` — but that fallback's construct contains the line
`self.say('Let's see a quick example')` (manim_writer.py:145 writes `\'`
inside a double-quoted Python literal, which is a bare apostrophe), so the
returned source is not valid Python: `ast.parse` raises `SyntaxError`
on it, contradicting the guaranteed-valid fallback contract. -/
theorem manim_fallback_nonparseable :
    write_manim_code (fun _ => .error "unreached") (fun _ => .ok "") demoModule
      = (_fallback_tutorial demoModule, 2) ∧
    strContains (_fallback_tutorial demoModule)
      "self.say('Let's see a quick example')" = true :=
  ⟨rfl, by decide⟩

/-- C6 (code-bug evidence): a syllabus-generator output of `42` — malformed
JSON output by the claim's definition — makes `generate_syllabus` raise
`TypeError` from `"modules" not in data` instead of returning the fallback;
on genuinely missing output the fallback of 6 modules is produced. -/
theorem syllabus_nonIterable_raises :
    generate_syllabus "Binary Search" [] (some (.jnum 42)) = .error "TypeError" ∧
    generate_syllabus "Binary Search" [] none
      = .ok (fallback_syllabus "Binary Search" 6) ∧
    (fallback_syllabus "Binary Search" 6).length = 6 :=
  ⟨rfl, rfl, by decide⟩

/-- C7: across one successful build of `m` modules the reported percent
values are non-decreasing and end at 100, and the per-completion compile
reports `60 + ⌊20·done/total⌋` stay within [60, 80]. -/
theorem progress_reports_monotone (m : ℕ) :
    (build_progress_reports m).Pairwise (· ≤ ·) ∧
    (build_progress_reports m).getLast? = some 100 ∧
    (∀ d, d < m → 60 ≤ compile_progress (max 1 m) (d + 1)
      ∧ compile_progress (max 1 m) (d + 1) ≤ 80) := by
  have ht0 : 0 < max 1 m := lt_of_lt_of_le Nat.zero_lt_one (Nat.le_max_left 1 m)
  have hmt : m ≤ max 1 m := Nat.le_max_right 1 m
  have hub : ∀ d, d < m → compile_progress (max 1 m) (d + 1) ≤ 80 := by
    intro d hd
    unfold compile_progress
    have h1 : (d + 1) * 20 ≤ (max 1 m) * 20 := Nat.mul_le_mul_right _ (by omega)
    have h2 : (d + 1) * 20 / (max 1 m) ≤ (max 1 m) * 20 / (max 1 m) :=
      Nat.div_le_div_right h1
    have h3 : (max 1 m) * 20 / (max 1 m) = 20 := Nat.mul_div_cancel_left 20 ht0
    omega
  have hmono : ∀ a b : ℕ, a ≤ b →
      compile_progress (max 1 m) (a + 1) ≤ compile_progress (max 1 m) (b + 1) := by
    intro a b hab
    unfold compile_progress
    have h1 : (a + 1) * 20 / (max 1 m) ≤ (b + 1) * 20 / (max 1 m) :=
      Nat.div_le_div_right (Nat.mul_le_mul_right 20 (by omega))
    omega
  refine ⟨?_, ?_, fun d hd => ⟨Nat.le_add_right 60 _, hub d hd⟩⟩
  · unfold build_progress_reports
    rw [List.pairwise_append]
    refine ⟨?_, by decide, ?_⟩
    · rw [List.pairwise_append]
      refine ⟨by decide, ?_, ?_⟩
      · rw [List.pairwise_map]
        exact (List.pairwise_lt_range m).imp (fun {a b} h => hmono a b (le_of_lt h))
      · intro a ha b hb
        have ha' : a = 5 ∨ a = 20 ∨ a = 60 := by simpa using ha
        obtain ⟨d, hdm, rfl⟩ := List.mem_map.mp hb
        have h60 : 60 ≤ compile_progress (max 1 m) (d + 1) := Nat.le_add_right 60 _
        rcases ha' with rfl | rfl | rfl <;> omega
    · intro a ha b hb
      have hb' : b = 80 ∨ b = 95 ∨ b = 100 := by simpa using hb
      rcases List.mem_append.mp ha with ha | ha
      · have ha' : a = 5 ∨ a = 20 ∨ a = 60 := by simpa using ha
        rcases ha' with rfl | rfl | rfl <;> rcases hb' with rfl | rfl | rfl <;> norm_num
      · obtain ⟨d, hdm, rfl⟩ := List.mem_map.mp ha
        have h80 := hub d (List.mem_range.mp hdm)
        rcases hb' with rfl | rfl | rfl <;> omega
  · have h100 : build_progress_reports m
        = ([5, 20, 60] ++ ((List.range m).map (fun d => compile_progress (max 1 m) (d + 1))
            ++ [80, 95])) ++ [100] := by
      simp [build_progress_reports, List.append_assoc]
    rw [h100, List.getLast?_concat]

/-- C8 counterexample: a synchronous progress callback that raises a
`ValueError`-like exception makes `report` itself raise — the failure is not
swallowed, so reporting progress can abort the build. -/
theorem report_sync_callback_aborts :
    report true (some ⟨false, some (.other "ValueError"), none⟩)
      = .error (.other "ValueError") ∧
    report true (some ⟨false, some (.other "ValueError"), none⟩) ≠ .ok () :=
  ⟨rfl, fun h => Except.noConfusion h⟩

/-- C8 amended: for an asynchronous callback — the orchestrator's supported
contract — any failure in the callback body stays inside the detached task
and `report` returns normally, whatever the loop state; an absent callback
is a no-op too. -/
theorem report_async_callback_never_aborts (loopRunning : Bool)
    (syncRaises bodyRaises : Option PyExc) :
    report loopRunning (some ⟨true, syncRaises, bodyRaises⟩) = .ok ()
      ∧ report loopRunning none = .ok () :=
  ⟨rfl, rfl⟩

/-- The conserved quantity of a permit set: free permits plus running jobs
equal the capacity in every reachable state. -/
theorem semReachable_sum {cap : ℕ} {s : SemState} (h : SemReachable cap s) :
    s.available + s.running = cap := by
  induction h with
  | init => rfl
  | step hr hstep ih =>
    cases hstep with
    | acquire h => dsimp only; omega
    | release h => dsimp only; omega

/-- C9: in every state reachable by acquire/release steps, the number of
jobs inside each guarded section never exceeds its configured capacity —
for the compile permit set and the remote-call permit set alike, whatever
their environment configuration. -/
theorem permit_sets_bounded (vc vl : Option String) (s₁ s₂ : SemState)
    (h₁ : SemReachable (compile_capacity vc) s₁)
    (h₂ : SemReachable (llm_capacity vl) s₂) :
    s₁.running ≤ compile_capacity vc ∧ s₂.running ≤ llm_capacity vl := by
  have i₁ := semReachable_sum h₁
  have i₂ := semReachable_sum h₂
  omega

/-- Witness for C9: one job inside each permit set at default capacities. -/
theorem permit_sets_bounded_witness :
    (SemState.mk 1 1).running ≤ compile_capacity none ∧
    (SemState.mk 2 1).running ≤ llm_capacity none := by
  have h1 : SemReachable (compile_capacity none) ⟨1, 1⟩ :=
    SemReachable.step SemReachable.init
      (SemStep.acquire ⟨compile_capacity none, 0⟩ (by decide))
  have h2 : SemReachable (llm_capacity none) ⟨2, 1⟩ :=
    SemReachable.step SemReachable.init
      (SemStep.acquire ⟨llm_capacity none, 0⟩ (by decide))
  exact permit_sets_bounded none none ⟨1, 1⟩ ⟨2, 1⟩ h1 h2

/-- C10 counterexample: a source holding `class Lesson` only inside a
trailing comment — so no line's stripped form starts with `class Lesson` —
contains `class Lesson` and no `def say(`, yet `_ensure_say_helper` returns
it unchanged and no helper is inserted, against the claim's otherwise-branch. -/
theorem ensure_say_helper_no_insertion_counterexample :
    strContains c10_input "class Lesson" = true ∧
    strContains c10_input "def say(" = false ∧
    _ensure_say_helper c10_input = c10_input ∧
    strContains (_ensure_say_helper c10_input) "def say(" = false :=
  ⟨by decide, by decide, rfl, by decide⟩

/-- C10 amended: the pass is the identity when the source lacks
`class Lesson`, already has `def say(`, or has no line whose stripped form
starts with `class Lesson`; when such a header line exists (and `def say(`
is absent) it splices the standard helper right after it; and the pass is
idempotent. -/
theorem ensure_say_helper_idempotent :
    (∀ c : String,
      strContains c "class Lesson" = false ∨ strContains c "def say(" = true →
      _ensure_say_helper c = c) ∧
    (∀ c : String, headerIdx (splitlines c.data) = none → _ensure_say_helper c = c) ∧
    (∀ (c : String) (i : ℕ),
      strContains c "class Lesson" = true → strContains c "def say(" = false →
      headerIdx (splitlines c.data) = some i →
      _ensure_say_helper c = String.mk (joinLines ((splitlines c.data).take (i + 1)
        ++ say_block ++ (splitlines c.data).drop (i + 1)))) ∧
    (∀ c : String, _ensure_say_helper (_ensure_say_helper c) = _ensure_say_helper c) := by
  have hid : ∀ cs : List Char,
      (hasSub "class Lesson".data cs = false ∨ hasSub "def say(".data cs = true) →
      _ensure_say_helper_chars cs = cs := by
    intro cs h
    unfold _ensure_say_helper_chars
    rcases h with h | h <;> simp [h]
  have hid2 : ∀ cs : List Char, headerIdx (splitlines cs) = none →
      _ensure_say_helper_chars cs = cs := by
    intro cs h
    simp [_ensure_say_helper_chars, h]
  have hins : ∀ (cs : List Char) (i : ℕ),
      hasSub "class Lesson".data cs = true → hasSub "def say(".data cs = false →
      headerIdx (splitlines cs) = some i →
      _ensure_say_helper_chars cs
        = joinLines ((splitlines cs).take (i + 1) ++ say_block
            ++ (splitlines cs).drop (i + 1)) := by
    intro cs i h1 h2 h3
    simp [_ensure_say_helper_chars, h1, h2, h3]
  have hidem : ∀ cs : List Char,
      _ensure_say_helper_chars (_ensure_say_helper_chars cs)
        = _ensure_say_helper_chars cs := by
    intro cs
    by_cases h1 : hasSub "class Lesson".data cs = true
    · by_cases h2 : hasSub "def say(".data cs = true
      · rw [hid cs (Or.inr h2), hid cs (Or.inr h2)]
      · have h2' : hasSub "def say(".data cs = false := by simpa using h2
        cases h3 : headerIdx (splitlines cs) with
        | none => rw [hid2 cs h3, hid2 cs h3]
        | some i =>
          rw [hins cs i h1 h2' h3]
          apply hid
          right
          apply hasSub_joinLines
            (l := "    def say(self, text: str, t: float = 2):".data)
          · exact List.mem_append.mpr (Or.inl (List.mem_append.mpr
              (Or.inr (by decide))))
          · decide
    · have h1' : hasSub "class Lesson".data cs = false := by simpa using h1
      rw [hid cs (Or.inl h1'), hid cs (Or.inl h1')]
  refine ⟨?_, ?_, ?_, ?_⟩
  · intro c h
    unfold _ensure_say_helper
    rw [hid c.data h]
  · intro c h
    unfold _ensure_say_helper
    rw [hid2 c.data h]
  · intro c i h1 h2 h3
    unfold _ensure_say_helper
    rw [hins c.data i h1 h2 h3]
  · intro c
    unfold _ensure_say_helper
    rw [hidem c.data]

/-- Witness for C10: splicing the helper into a real `Lesson` scene, and
idempotence on it. -/
theorem ensure_say_helper_idempotent_witness :
    _ensure_say_helper c10_demo
      = String.mk (joinLines ((splitlines c10_demo.data).take 2
          ++ say_block ++ (splitlines c10_demo.data).drop 2)) ∧
    _ensure_say_helper (_ensure_say_helper c10_demo) = _ensure_say_helper c10_demo :=
  ⟨ensure_say_helper_idempotent.2.2.1 c10_demo 1 (by decide) (by decide) (by decide),
   ensure_say_helper_idempotent.2.2.2 c10_demo⟩

/-- Witness for C7 at a three-module build. -/
theorem progress_reports_monotone_witness :
    (build_progress_reports 3).Pairwise (· ≤ ·) ∧
    (build_progress_reports 3).getLast? = some 100 ∧
    (60 ≤ compile_progress (max 1 3) (1 + 1) ∧ compile_progress (max 1 3) (1 + 1) ≤ 80) :=
  ⟨(progress_reports_monotone 3).1, (progress_reports_monotone 3).2.1,
   (progress_reports_monotone 3).2.2 1 (by decide)⟩
